import Mathlib

/-!
# ObscuraRT — shallow embedding and verification

A shallow embedding of the frame-source / color-conversion subsystem
(`src/frame_grabber.cpp`, `src/include/frame_grabber.h`), the compute-resource
lifecycle (`src/compute_pipeline.cpp`) and the orchestrator upload step
(`src/main.cpp`) of the ObscuraRT repository, together with theorems settling
the specification claims about them.

Machine arithmetic: the C++ code computes sizes and pixel values in 32-bit
unsigned arithmetic (`uint32_t`), which wraps modulo `2^32`; stores into
`uint8_t` truncate modulo `2^8`.  We model both explicitly with
`% M32` and `% 256` on `Nat`.  Signed `int` arithmetic in the YUV conversion
never overflows 32 bits (all intermediates are below `10^5` in magnitude), so
it is modelled with `Int` directly; the C++ arithmetic right shift `>> 8` on a
(possibly negative) `int` is floor division by 256, i.e. `Int.fdiv`.
-/

/-- `2^32`, the modulus of `uint32_t` arithmetic. -/
def M32 : Nat := 4294967296

namespace ObscuraRT

/-- The `Frame` struct of `frame_grabber.h`: width, height, stride (bytes per
row) and the pixel bytes.  Bytes are modelled as `Nat` values `< 256`. -/
structure Frame where
  width : Nat
  height : Nat
  stride : Nat
  data : List Nat
  deriving DecidableEq, Repr

/-- `Frame::getTotalBytes`: the length of the pixel byte vector. -/
def Frame.getTotalBytes (f : Frame) : Nat := f.data.length

/-! ## FrameGrabber (test-pattern source), `frame_grabber.cpp` lines 28–54 -/

/-- The mutable state of a `FrameGrabber`: requested dimensions and the
diagnostic frame counter (all `uint32_t`). -/
structure FGState where
  width : Nat
  height : Nat
  frameCount : Nat
  deriving DecidableEq, Repr

/-- One test-pattern pixel, exactly as the loop body of
`FrameGrabber::grabFrame` computes it:

    uint8_t r = (x * 255) / width_;
    uint8_t g = (y * 255) / height_;
    uint8_t b = ((x + y) * 255) / (width_ + height_);
    uint8_t a = 255;

All multiplications and the sum `width_ + height_` are `uint32_t` operations
(wrapping modulo `2^32`); the quotient is truncated to `uint8_t` (`% 256`). -/
def testPixel (W H x y : Nat) : List Nat :=
  [x * 255 % M32 / W % 256,
   y * 255 % M32 / H % 256,
   (x + y) % M32 * 255 % M32 / ((W + H) % M32) % 256,
   255]

/-- The inner loop of `FrameGrabber::grabFrame`: pixels `(0,y) … (n-1,y)` of
row `y`, appended in increasing `x` order. -/
def buildRow (W H y : Nat) : Nat → List Nat
  | 0 => []
  | n + 1 => buildRow W H y n ++ testPixel W H n y

/-- The outer loop of `FrameGrabber::grabFrame`: rows `0 … n-1`, appended in
increasing `y` order. -/
def buildFrame (W H : Nat) : Nat → List Nat
  | 0 => []
  | n + 1 => buildFrame W H n ++ buildRow W H n W

/-- The full pixel payload the nested loops of `FrameGrabber::grabFrame`
write: `H` rows of `W` pixels, row-major, 4 bytes per pixel.
(The C++ code resizes the vector to `(size_t)(width_ * height_) * 4` where
`width_ * height_` is a wrapping `uint32_t` product; for `W * H ≥ 2^32` the
loops overrun that buffer — undefined behaviour outside this model.) -/
def frameData (W H : Nat) : List Nat := buildFrame W H H

/-- `FrameGrabber::grabFrame` (test-pattern variant): always succeeds, fills
the out-parameter frame with the gradient pattern and increments the frame
counter.  Result: `(return value, state after, out_frame after)`. -/
def FrameGrabber.grabFrame (s : FGState) : Bool × FGState × Frame :=
  (true,
   { s with frameCount := (s.frameCount + 1) % M32 },
   { width := s.width, height := s.height,
     stride := s.width * 4 % M32,
     data := frameData s.width s.height })

/-! ## YUYV → RGBA conversion, `frame_grabber.cpp` lines 170–206 -/

/-- The clamp `std::max(0, std::min(255, v))` of `WebcamGrabber::yuyv2rgba`,
followed by the store into `uint8_t` (the value is already in `[0,255]`, so
`Int.toNat` is the exact store). -/
def clamp8 (v : Int) : Nat := (max 0 (min 255 v)).toNat

/-- One RGBA pixel of `WebcamGrabber::yuyv2rgba` from one luma byte `y` and
the shared chroma bytes `u`, `v`:

    int c = y - 16;  int d = u - 128;  int e = v - 128;
    r = (298*c + 409*e + 128) >> 8;
    g = (298*c - 100*d - 208*e + 128) >> 8;
    b = (298*c + 516*d + 128) >> 8;

each channel clamped to `[0,255]`, alpha = 255.  `>> 8` on `int` is an
arithmetic shift, i.e. floor division by 256. -/
def yuvPixel (y u v : Nat) : List Nat :=
  let c : Int := (y : Int) - 16
  let d : Int := (u : Int) - 128
  let e : Int := (v : Int) - 128
  [clamp8 (Int.fdiv (298 * c + 409 * e + 128) 256),
   clamp8 (Int.fdiv (298 * c - 100 * d - 208 * e + 128) 256),
   clamp8 (Int.fdiv (298 * c + 516 * d + 128) 256),
   255]

/-- `WebcamGrabber::yuyv2rgba`: each 4-byte group `Y1 U Y2 V` yields the two
RGBA pixels `yuvPixel Y1 U V` and `yuvPixel Y2 U V`, in order.  The C++ loop
advances the source pointer by 4 and the destination by 8 per iteration; the
recursion consumes the byte list in the same 4-byte steps. -/
def yuyv2rgba : List Nat → List Nat
  | y1 :: u :: y2 :: v :: rest => yuvPixel y1 u v ++ yuvPixel y2 u v ++ yuyv2rgba rest
  | _ => []

/-! ## WebcamGrabber (V4L2 capture source), `frame_grabber.cpp` lines 60–168 -/

/-- The mutable state of a `WebcamGrabber`: the V4L2 file descriptor (`-1`
when closed, as in the source), the adopted dimensions (`uint32_t`), the
persistent RGBA conversion buffer `buffer_`, and the frame counter. -/
structure WGState where
  fd : Int
  width : Nat
  height : Nat
  buffer : List Nat
  frameCount : Nat
  deriving DecidableEq, Repr

/-- The observable behaviour of the capture device during `initV4L2`, one field per
syscall the code makes: the descriptor `open` returns (`none` = failure), the
outcomes of the `VIDIOC_QUERYCAP` and `VIDIOC_S_FMT` ioctls, whether the
capability word contains `V4L2_CAP_VIDEO_CAPTURE`, and the (possibly adjusted)
width/height the `S_FMT` ioctl writes back (`__u32` fields). -/
structure V4L2Device where
  openFd : Option Nat
  querycapOk : Bool
  videoCaptureCap : Bool
  sfmtOk : Bool
  fmtWidth : Nat
  fmtHeight : Nat
  deriving DecidableEq, Repr

/-- `WebcamGrabber::initV4L2`: open, query capabilities, set YUYV format, and
adopt the device-returned resolution (the code overwrites `width_`/`height_`
only when they differ, which is the same as always taking the returned
values), then resize `buffer_` to `width_ * height_ * 4` bytes (a wrapping
`uint32_t` product; `resize` value-initialises with zero bytes).  Every
failure path closes the descriptor and resets `fd_` to `-1`. -/
def WebcamGrabber.initV4L2 (s : WGState) (dev : V4L2Device) : Bool × WGState :=
  match dev.openFd with
  | none => (false, { s with fd := -1 })
  | some fd =>
    if !dev.querycapOk then (false, { s with fd := -1 })
    else if !dev.videoCaptureCap then (false, { s with fd := -1 })
    else if !dev.sfmtOk then (false, { s with fd := -1 })
    else
      (true, { s with fd := (fd : Int),
                      width := dev.fmtWidth,
                      height := dev.fmtHeight,
                      buffer := List.replicate (dev.fmtWidth * dev.fmtHeight * 4 % M32) 0 })

/-- The size argument of the single `read` call in `WebcamGrabber::grabFrame`:
`width_ * height_ * 2` in wrapping `uint32_t` arithmetic (the size of the
local `yuyv_buffer`). -/
def readRequestSize (s : WGState) : Nat := s.width * s.height * 2 % M32

/-- `WebcamGrabber::grabFrame`.  `readData` is what the one blocking `read`
on the descriptor delivers; the call fails (returns `false`) when the device
is not open or when the delivered byte count differs from the requested
`yuyv_buffer.size()`.  On failure nothing is written to the out-parameter
frame and the state is untouched (the partial data, a local vector, is
discarded, never accumulated).  On success the YUYV bytes are converted into
`buffer_` and the frame takes the adopted dimensions, stride
`width_ * 4` and a copy of `buffer_`.
Result: `(return value, state after, out_frame after)`. -/
def WebcamGrabber.grabFrame (s : WGState) (outFrame : Frame) (readData : List Nat) :
    Bool × WGState × Frame :=
  if s.fd < 0 then (false, s, outFrame)
  else if readData.length ≠ readRequestSize s then (false, s, outFrame)
  else
    let converted := yuyv2rgba readData
    (true,
     { s with buffer := converted, frameCount := (s.frameCount + 1) % M32 },
     { width := s.width, height := s.height,
       stride := s.width * 4 % M32, data := converted })

/-- `WebcamGrabber::cleanup`: close the descriptor if it is open (and reset it
to `-1`), clear the buffer.  The second component lists the descriptors
actually closed by this call, so that a repeated call observably releases
nothing. -/
def WebcamGrabber.cleanup (s : WGState) : WGState × List Int :=
  if s.fd ≥ 0 then ({ s with fd := -1, buffer := [] }, [s.fd])
  else ({ s with buffer := [] }, [])

/-! ## ComputePipeline resource lifecycle, `compute_pipeline.cpp` -/

/-- The device/host resources `ComputePipeline` creates and destroys. -/
inductive Res
  | inputImage | outputImage
  | inputImageMemory | outputImageMemory
  | inputImageView | outputImageView
  | stagingBuffer | stagingBufferMemory
  | shaderModule | descriptorSetLayout | pipelineLayout | computePipeline
  | descriptorPool | descriptorSets | commandBuffer | fence
  deriving DecidableEq, Repr

/-- The order in which `ComputePipeline::init` (lines 40–57) creates resources,
following its call sequence: `createImages` (images, then their memory, then
their views, input before output throughout), `createStagingBuffer` (buffer
then memory), `createShaderModule`, `createDescriptorSetLayout`,
`createPipelineLayout`, `createComputePipeline`, `createDescriptorPool`,
`allocateDescriptorSets`, `createCommandBuffer`, `createSynchronization`. -/
def initCreationOrder : List Res :=
  [.inputImage, .outputImage,
   .inputImageMemory, .outputImageMemory,
   .inputImageView, .outputImageView,
   .stagingBuffer, .stagingBufferMemory,
   .shaderModule, .descriptorSetLayout, .pipelineLayout, .computePipeline,
   .descriptorPool, .descriptorSets, .commandBuffer, .fence]

/-- The Vulkan handle fields of `ComputePipeline` that `cleanup` touches.
A handle is a `Nat`; `0` is `VK_NULL_HANDLE`. -/
structure CPState where
  computeFence : Nat
  descriptorPool : Nat
  computePipeline : Nat
  pipelineLayout : Nat
  descriptorSetLayout : Nat
  computeShader : Nat
  inputImageView : Nat
  outputImageView : Nat
  inputImage : Nat
  outputImage : Nat
  inputImageMemory : Nat
  outputImageMemory : Nat
  stagingBuffer : Nat
  stagingBufferMemory : Nat
  deriving DecidableEq, Repr

/-- One `if (handle != VK_NULL_HANDLE) vkDestroyXxx(...)` guard of
`ComputePipeline::cleanup`: the destroy event it emits. -/
def destroyIf (handle : Nat) (r : Res) : List Res :=
  if handle ≠ 0 then [r] else []

/-- `ComputePipeline::cleanup` (lines 59–106): destroys every non-null handle
in the textual order of the function.  The function never assigns
`VK_NULL_HANDLE` back to any member, so the state is returned unchanged;
the second component is the ordered list of destroy calls issued. -/
def ComputePipeline.cleanup (s : CPState) : CPState × List Res :=
  (s,
   destroyIf s.computeFence .fence ++
   destroyIf s.descriptorPool .descriptorPool ++
   destroyIf s.computePipeline .computePipeline ++
   destroyIf s.pipelineLayout .pipelineLayout ++
   destroyIf s.descriptorSetLayout .descriptorSetLayout ++
   destroyIf s.computeShader .shaderModule ++
   destroyIf s.inputImageView .inputImageView ++
   destroyIf s.outputImageView .outputImageView ++
   destroyIf s.inputImage .inputImage ++
   destroyIf s.outputImage .outputImage ++
   destroyIf s.inputImageMemory .inputImageMemory ++
   destroyIf s.outputImageMemory .outputImageMemory ++
   destroyIf s.stagingBuffer .stagingBuffer ++
   destroyIf s.stagingBufferMemory .stagingBufferMemory)

/-- A `ComputePipeline` state right after a successful `init`: every handle
non-null (concretely `1`). -/
def cpInitialized : CPState :=
  ⟨1, 1, 1, 1, 1, 1, 1, 1, 1, 1, 1, 1, 1, 1⟩

/-- The destruction order `cleanup` performs on a fully initialized pipeline. -/
def cleanupDestructionOrder : List Res := (ComputePipeline.cleanup cpInitialized).2

/-! ## Shader asset loading, `compute_pipeline.cpp` lines 15–30 -/

/-- Little-endian packing of a byte list into 32-bit words, as `file.read`
fills the `std::vector<uint32_t>` buffer of `readShaderFile`.  The buffer
holds `fileSize / 4` words, so only the first `fileSize / 4 * 4` bytes land
inside it; a trailing 1–3 bytes of a non-word-aligned file are written past
the end of the allocation (a heap overrun in the C++). -/
def bytesToWords : List Nat → List Nat
  | b0 :: b1 :: b2 :: b3 :: rest =>
      (b0 + b1 * 256 + b2 * 65536 + b3 * 16777216) :: bytesToWords rest
  | _ => []

/-- `readShaderFile`: `none` models a file that cannot be opened (the code
throws `std::runtime_error`); otherwise the file bytes are packed into the
`fileSize / 4`-word buffer and returned.  No word-alignment check exists in
the source. -/
def readShaderFile (file : Option (List Nat)) : Except String (List Nat) :=
  match file with
  | none => .error "Failed to open shader file"
  | some bytes => .ok (bytesToWords bytes)

/-! ## Orchestrator upload step, `main.cpp` lines 48–53 -/

/-- The staging-buffer capacity `ComputePipeline::createStagingBuffer` locks
at init: `width_ * height_ * 4` in wrapping `uint32_t` arithmetic. -/
def getStagingBufferSize (width height : Nat) : Nat := width * height * 4 % M32

/-- The per-frame upload of `ObscuraRT::run`: map the staging memory and
`memcpy` `frame.getTotalBytes()` bytes of `frame.data` over it, with no
length check of any kind.  The result is the staging buffer contents after
the copy (when the frame is larger than the buffer the `memcpy` also writes
past the mapped range — a heap overrun in the C++; the model keeps all the
written bytes). -/
def uploadFrame (staging : List Nat) (frame : Frame) : List Nat :=
  frame.data ++ staging.drop frame.data.length

/-! ## Helper lemmas: indexing into the generated test-pattern frame -/

lemma buildRow_length (W H y n : Nat) : (buildRow W H y n).length = n * 4 := by
  induction n with
  | zero => rfl
  | succ n ih => simp [buildRow, ih, Nat.succ_mul, testPixel]

lemma buildFrame_length (W H n : Nat) : (buildFrame W H n).length = n * (W * 4) := by
  induction n with
  | zero => simp [buildFrame]
  | succ n ih => simp [buildFrame, ih, buildRow_length, Nat.succ_mul]

lemma frameData_length (W H : Nat) : (frameData W H).length = H * (W * 4) :=
  buildFrame_length W H H

lemma buildRow_get? (W H y : Nat) {n x c : Nat} (hx : x < n) (hc : c < 4) :
    (buildRow W H y n).get? (x * 4 + c) = (testPixel W H x y).get? c := by
  induction n with
  | zero => omega
  | succ n ih =>
    rcases Nat.lt_succ_iff_lt_or_eq.mp hx with h | h
    · rw [buildRow, List.get?_append (by rw [buildRow_length]; omega)]
      exact ih h
    · subst h
      rw [buildRow, List.get?_append_right (by rw [buildRow_length]; omega)]
      congr 1
      rw [buildRow_length]
      omega

lemma buildFrame_get? (W H : Nat) {n y j : Nat} (hy : y < n) (hj : j < W * 4) :
    (buildFrame W H n).get? (y * (W * 4) + j) = (buildRow W H y W).get? j := by
  induction n with
  | zero => omega
  | succ n ih =>
    rcases Nat.lt_succ_iff_lt_or_eq.mp hy with h | h
    · have hlt : y * (W * 4) + j < (buildFrame W H n).length := by
        rw [buildFrame_length]
        have h1 : y * (W * 4) + j < Nat.succ y * (W * 4) := by
          rw [Nat.succ_mul]
          exact Nat.add_lt_add_left hj _
        exact Nat.lt_of_lt_of_le h1 (Nat.mul_le_mul_right _ h)
      rw [buildFrame, List.get?_append hlt]
      exact ih h
    · subst h
      have hge : (buildFrame W H y).length ≤ y * (W * 4) + j := by
        rw [buildFrame_length]
        exact Nat.le_add_right _ _
      rw [buildFrame, List.get?_append_right hge, buildFrame_length,
        Nat.add_sub_cancel_left]

/-- Byte `c` of the pixel at coordinates `(x, y)` of a test-pattern frame is
byte `c` of `testPixel`, at the row-major offset `(y*W + x)*4 + c`. -/
lemma frameData_get? (W H : Nat) {x y c : Nat} (hx : x < W) (hy : y < H) (hc : c < 4) :
    (frameData W H).get? ((y * W + x) * 4 + c) = (testPixel W H x y).get? c := by
  have heq : (y * W + x) * 4 + c = y * (W * 4) + (x * 4 + c) := by ring
  rw [frameData, heq, buildFrame_get? W H hy (by omega), buildRow_get? W H y hx hc]

/-- When `num` fits in 32 bits and the quotient fits in a byte, the wrapped,
truncated channel computation collapses to the exact `floor (num / den)`. -/
lemma gradChannel_eq (num den : Nat) (hden : 0 < den) (hnum : num < M32)
    (hlt : num < 256 * den) :
    num % M32 / den % 256 = num / den := by
  rw [Nat.mod_eq_of_lt hnum, Nat.mod_eq_of_lt ((Nat.div_lt_iff_lt_mul hden).mpr (by omega))]

lemma mul255_lt_256_mul {a b : Nat} (h : a < b) : a * 255 < 256 * b := by
  calc a * 255 < b * 255 := Nat.mul_lt_mul_of_lt_of_le h (le_refl 255) (by omega)
    _ ≤ b * 256 := Nat.mul_le_mul_left _ (by omega)
    _ = 256 * b := Nat.mul_comm _ _

/-- The clamp of the YUV conversion always lands in the byte range. -/
lemma clamp8_le (v : Int) : clamp8 v ≤ 255 := by
  unfold clamp8
  omega

/-- The success path of `WebcamGrabber::grabFrame`: device open and the read
delivered exactly the requested byte count. -/
lemma grabFrame_success (s : WGState) (f : Frame) (readData : List Nat)
    (hfd : 0 ≤ s.fd) (hlen : readData.length = readRequestSize s) :
    WebcamGrabber.grabFrame s f readData =
      (true, { s with buffer := yuyv2rgba readData, frameCount := (s.frameCount + 1) % M32 },
       { width := s.width, height := s.height, stride := s.width * 4 % M32,
         data := yuyv2rgba readData }) := by
  rw [WebcamGrabber.grabFrame, if_neg (by omega), if_neg (not_not_intro hlen)]

/-! ## Claim C1 — test-pattern gradient -/

/-- C1, counterexample to the claim as stated.  The claim says the red channel
of the pixel at `(x, y)` is `floor (x*255/W)` for every frame dimension.  The
multiplication `x * 255` is a wrapping `uint32_t` product: at `W = 16843011`,
`H = 1`, `x = 16843010`, `y = 0` the product `16843010 * 255 = 4294967550`
wraps to `254`, so the stored red channel is `254 / 16843011 = 0`, while the
claimed value `floor (16843010*255/16843011)` is `254`. -/
theorem testPattern_gradient_overflow_counterexample :
    ((FrameGrabber.grabFrame ⟨16843011, 1, 0⟩).2.2.data).get? ((0 * 16843011 + 16843010) * 4)
      ≠ some (16843010 * 255 / 16843011) ∧
    ((FrameGrabber.grabFrame ⟨16843011, 1, 0⟩).2.2.data).get? ((0 * 16843011 + 16843010) * 4)
      = some 0 ∧
    16843010 * 255 / 16843011 = 254 := by
  have h := frameData_get? 16843011 1 (x := 16843010) (y := 0) (c := 0)
    (by decide) (by decide) (by decide)
  rw [Nat.add_zero] at h
  have h0 : ((FrameGrabber.grabFrame ⟨16843011, 1, 0⟩).2.2.data).get?
      ((0 * 16843011 + 16843010) * 4) = some 0 := by
    show (frameData 16843011 1).get? ((0 * 16843011 + 16843010) * 4) = some 0
    rw [h]
    decide
  refine ⟨?_, h0, by decide⟩
  rw [h0]
  decide

/-- C1 (amended).  For dimensions small enough that no `uint32_t` product
wraps — `((W-1)+(H-1))*255 < 2^32` and `W+H < 2^32` — every test-pattern
pixel `(x, y)` of a `W×H` frame produced by `FrameGrabber::grabFrame` has
channels `r = floor (x*255/W)`, `g = floor (y*255/H)`,
`b = floor ((x+y)*255/(W+H))`, `a = 255`, and two calls on states with
identical dimensions produce bit-identical frames: the frame counter (and any
other state) does not influence the output.  For larger dimensions the
products are computed modulo `2^32` and the floor formulas fail, as the
counterexample shows. -/
theorem testPattern_gradient_formula (s₁ s₂ : FGState) (x y : Nat)
    (hw : s₁.width = s₂.width) (hh : s₁.height = s₂.height)
    (hx : x < s₁.width) (hy : y < s₁.height)
    (hov : (s₁.width + s₁.height - 2) * 255 < M32)
    (hsum : s₁.width + s₁.height < M32) :
    (FrameGrabber.grabFrame s₁).2.2 = (FrameGrabber.grabFrame s₂).2.2 ∧
    ((FrameGrabber.grabFrame s₁).2.2.data).get? ((y * s₁.width + x) * 4) =
      some (x * 255 / s₁.width) ∧
    ((FrameGrabber.grabFrame s₁).2.2.data).get? ((y * s₁.width + x) * 4 + 1) =
      some (y * 255 / s₁.height) ∧
    ((FrameGrabber.grabFrame s₁).2.2.data).get? ((y * s₁.width + x) * 4 + 2) =
      some ((x + y) * 255 / (s₁.width + s₁.height)) ∧
    ((FrameGrabber.grabFrame s₁).2.2.data).get? ((y * s₁.width + x) * 4 + 3) = some 255 := by
  have hW : 0 < s₁.width := Nat.lt_of_le_of_lt (Nat.zero_le x) hx
  have hH : 0 < s₁.height := Nat.lt_of_le_of_lt (Nat.zero_le y) hy
  have hxb : x * 255 ≤ (s₁.width + s₁.height - 2) * 255 :=
    Nat.mul_le_mul_right _ (by omega)
  have hyb : y * 255 ≤ (s₁.width + s₁.height - 2) * 255 :=
    Nat.mul_le_mul_right _ (by omega)
  have hxyb : (x + y) * 255 ≤ (s₁.width + s₁.height - 2) * 255 :=
    Nat.mul_le_mul_right _ (by omega)
  refine ⟨?_, ?_, ?_, ?_, ?_⟩
  · simp [FrameGrabber.grabFrame, hw, hh]
  · have h := frameData_get? s₁.width s₁.height hx hy (c := 0) (by omega)
    rw [Nat.add_zero] at h
    show (frameData s₁.width s₁.height).get? _ = _
    rw [h]
    show some (x * 255 % M32 / s₁.width % 256) = _
    rw [gradChannel_eq _ _ hW (by omega) (mul255_lt_256_mul hx)]
  · have h := frameData_get? s₁.width s₁.height hx hy (c := 1) (by omega)
    show (frameData s₁.width s₁.height).get? _ = _
    rw [h]
    show some (y * 255 % M32 / s₁.height % 256) = _
    rw [gradChannel_eq _ _ hH (by omega) (mul255_lt_256_mul hy)]
  · have h := frameData_get? s₁.width s₁.height hx hy (c := 2) (by omega)
    show (frameData s₁.width s₁.height).get? _ = _
    rw [h]
    show some ((x + y) % M32 * 255 % M32 / ((s₁.width + s₁.height) % M32) % 256) = _
    rw [Nat.mod_eq_of_lt (a := x + y) (by omega),
        Nat.mod_eq_of_lt (a := s₁.width + s₁.height) hsum,
        gradChannel_eq _ _ (by omega) (by omega) (mul255_lt_256_mul (by omega))]
  · have h := frameData_get? s₁.width s₁.height hx hy (c := 3) (by omega)
    show (frameData s₁.width s₁.height).get? _ = _
    rw [h]
    rfl

/-- C1, witness: the amended theorem applied to a 2×2 frame at pixel `(1,1)`,
with two states whose frame counters differ. -/
theorem testPattern_gradient_formula_witness :
    (((1 : Nat) < 2) ∧ ((2 : Nat) + 2 - 2) * 255 < M32 ∧ (2 : Nat) + 2 < M32) ∧
    ((FrameGrabber.grabFrame ⟨2, 2, 0⟩).2.2 = (FrameGrabber.grabFrame ⟨2, 2, 17⟩).2.2 ∧
     ((FrameGrabber.grabFrame ⟨2, 2, 0⟩).2.2.data).get? ((1 * 2 + 1) * 4) =
       some (1 * 255 / 2) ∧
     ((FrameGrabber.grabFrame ⟨2, 2, 0⟩).2.2.data).get? ((1 * 2 + 1) * 4 + 1) =
       some (1 * 255 / 2) ∧
     ((FrameGrabber.grabFrame ⟨2, 2, 0⟩).2.2.data).get? ((1 * 2 + 1) * 4 + 2) =
       some ((1 + 1) * 255 / (2 + 2)) ∧
     ((FrameGrabber.grabFrame ⟨2, 2, 0⟩).2.2.data).get? ((1 * 2 + 1) * 4 + 3) = some 255) :=
  ⟨⟨by decide, by decide, by decide⟩,
   testPattern_gradient_formula ⟨2, 2, 0⟩ ⟨2, 2, 17⟩ 1 1 rfl rfl
     (by decide) (by decide) (by decide) (by decide)⟩

/-! ## Claim C2 — YUYV to RGBA conversion formula and clamping -/

/-- C2.  Each 4-byte YUYV group `(Y1, U, Y2, V)` converts to the two RGBA
pixels obtained by applying the per-pixel BT.601 formula (`yuvPixel`, the
literal `c = Y-16`, `d = U-128`, `e = V-128`, shifted linear combinations,
clamp) independently to `(Y1, U, V)` and `(Y2, U, V)`; every produced channel
lies in `[0, 255]` (channels are `Nat`, so nonnegativity is inherent) and the
alpha byte of each pixel is 255, for all byte inputs. -/
theorem yuyv_conversion_formula_clamped (y1 u y2 v : Nat)
    (h1 : y1 < 256) (h2 : u < 256) (h3 : y2 < 256) (h4 : v < 256) :
    yuyv2rgba [y1, u, y2, v] = yuvPixel y1 u v ++ yuvPixel y2 u v ∧
    (yuvPixel y1 u v).all (fun ch => decide (ch ≤ 255)) = true ∧
    (yuvPixel y2 u v).all (fun ch => decide (ch ≤ 255)) = true ∧
    (yuvPixel y1 u v).get? 3 = some 255 ∧
    (yuvPixel y2 u v).get? 3 = some 255 := by
  refine ⟨?_, ?_, ?_, rfl, rfl⟩
  · simp [yuyv2rgba]
  · simp [yuvPixel, List.all, clamp8_le]
  · simp [yuvPixel, List.all, clamp8_le]

/-- C2, witness: the adversarial input `Y1=255, U=0, Y2=0, V=255` named by the
specification. -/
theorem yuyv_conversion_formula_clamped_witness :
    ((255 : Nat) < 256 ∧ (0 : Nat) < 256) ∧
    (yuyv2rgba [255, 0, 0, 255] = yuvPixel 255 0 255 ++ yuvPixel 0 0 255 ∧
     (yuvPixel 255 0 255).all (fun ch => decide (ch ≤ 255)) = true ∧
     (yuvPixel 0 0 255).all (fun ch => decide (ch ≤ 255)) = true ∧
     (yuvPixel 255 0 255).get? 3 = some 255 ∧
     (yuvPixel 0 0 255).get? 3 = some 255) :=
  ⟨⟨by decide, by decide⟩,
   yuyv_conversion_formula_clamped 255 0 0 255 (by decide) (by decide) (by decide) (by decide)⟩

/-! ## Claim C3 — conversion of the all-128 YUYV group -/

/-- C3, counterexample to the claim as stated: the literal arithmetic on the
group `Y1=128, U=128, Y2=128, V=128` does not give `(112, 115, 112, 255)`.
With `c = 112`, `d = e = 0`, every color channel is
`(298*112 + 128) >> 8 = 33504 >> 8 = 130`. -/
theorem yuyv_gray_group_counterexample :
    yuyv2rgba [128, 128, 128, 128] ≠ [112, 115, 112, 255, 112, 115, 112, 255] := by
  decide

/-- C3 (amended).  For the YUYV input group `Y1=128, U=128, Y2=128, V=128`
the conversion produces two output pixels both equal to `(130, 130, 130, 255)`
(not `(112, 115, 112, 255)`). -/
theorem yuyv_gray_group_value :
    yuyv2rgba [128, 128, 128, 128] = [130, 130, 130, 255, 130, 130, 130, 255] := by
  decide

/-! ## Claim C4 — teardown order versus creation order -/

/-- C4, counterexample to the claim as stated: the destruction order of
`ComputePipeline::cleanup` is not the reverse of the creation order of
`ComputePipeline::init` (restricted to the resources cleanup releases).  In
particular the staging buffer is created before the shader module
(`createStagingBuffer` runs before `createShaderModule` in `init`) yet it is
destroyed after the shader module, violating the claimed rule that a resource
created later is destroyed earlier. -/
theorem cleanup_not_reverse_creation_counterexample :
    cleanupDestructionOrder ≠
      (initCreationOrder.filter (fun r => decide (r ∈ cleanupDestructionOrder))).reverse ∧
    List.Sublist [Res.stagingBuffer, Res.shaderModule] initCreationOrder ∧
    List.Sublist [Res.shaderModule, Res.stagingBuffer] cleanupDestructionOrder := by
  refine ⟨by decide, by decide, by decide⟩

/-- C4 (amended).  `ComputePipeline::cleanup` releases resources in the fixed
order fence → descriptor pool → pipeline → pipeline layout → descriptor set
layout → shader module → input image view → output image view → input image →
output image → input image memory → output image memory → staging buffer →
staging buffer memory.  This reverses creation order only for the six
resources created after the images and staging buffer (fence, pool, pipeline,
pipeline layout, descriptor set layout, shader module); images and their
memory, their views, and the staging pair are not released in reverse creation
order. -/
theorem cleanup_fixed_destruction_order :
    cleanupDestructionOrder =
      [.fence, .descriptorPool, .computePipeline, .pipelineLayout, .descriptorSetLayout,
       .shaderModule, .inputImageView, .outputImageView, .inputImage, .outputImage,
       .inputImageMemory, .outputImageMemory, .stagingBuffer, .stagingBufferMemory] ∧
    cleanupDestructionOrder.take 6 =
      ((initCreationOrder.drop 8).filter
        (fun r => decide (r ∈ cleanupDestructionOrder))).reverse := by
  refine ⟨by decide, by decide⟩

/-! ## Claim C5 — teardown idempotence -/

/-- C5.  The claim is violated by `ComputePipeline::cleanup`: the function
destroys every non-null handle but never resets the member fields to
`VK_NULL_HANDLE`, so on a fully initialized pipeline a second `cleanup` call
issues exactly the same fourteen destroy calls again (a double free of every
resource).  By contrast, `WebcamGrabber::cleanup` does reset its descriptor to
`-1`, and its second call releases nothing. -/
theorem cleanup_double_destroy :
    (ComputePipeline.cleanup cpInitialized).1 = cpInitialized ∧
    (ComputePipeline.cleanup ((ComputePipeline.cleanup cpInitialized).1)).2 =
      (ComputePipeline.cleanup cpInitialized).2 ∧
    (ComputePipeline.cleanup cpInitialized).2 ≠ [] ∧
    (WebcamGrabber.cleanup (WebcamGrabber.cleanup ⟨3, 640, 480, [], 0⟩).1).2 = [] := by
  refine ⟨rfl, rfl, by decide, rfl⟩

/-! ## Claim C6 — shader asset loading -/

/-- C6.  `readShaderFile` throws only for a missing file.  A file whose size
is not a multiple of 4 is NOT rejected: a 5-byte file yields a one-word module
with no error (in the C++ the read also overruns the 4-byte buffer by one
byte).  Word-aligned files load successfully with their contents preserved as
little-endian 32-bit words. -/
theorem readShaderFile_unaligned_not_rejected :
    readShaderFile (some [1, 2, 3, 4, 5]) = .ok [67305985] ∧
    readShaderFile none = .error "Failed to open shader file" ∧
    readShaderFile (some [1, 2, 3, 4, 5, 6, 7, 8]) = .ok [67305985, 134678021] :=
  ⟨rfl, rfl, rfl⟩

/-! ## Claim C7 — device read size and failure on mismatch -/

/-- C7, counterexample to the claim as stated: the requested and compared read
size is `width*height*2` in wrapping `uint32_t` arithmetic.  At the adopted
resolution 65536×65536 the product wraps to 0, so a read delivering 0 bytes —
which differs from `width*height*2 = 2^33` — makes `grabFrame` return `true`
instead of the claimed `false`. -/
theorem grabFrame_wrapped_read_counterexample :
    (WebcamGrabber.grabFrame ⟨0, 65536, 65536, [], 0⟩ ⟨0, 0, 0, []⟩ []).1 = true ∧
    ([] : List Nat).length ≠ 65536 * 65536 * 2 := by
  refine ⟨by decide, by decide⟩

/-- C7 (amended).  One acquisition call performs one blocking read of exactly
`width*height*2 mod 2^32` bytes — equal to `width*height*2` whenever that
product fits in 32 bits — and whenever the delivered byte count differs from
that requested size, `grabFrame` returns `false` with the state unchanged:
nothing is retried and no partial data is accumulated across calls (the model
consumes exactly one read per call by construction). -/
theorem grabFrame_read_exact_or_fail (s : WGState) (f : Frame) (readData : List Nat)
    (hopen : 0 ≤ s.fd) (hmis : readData.length ≠ readRequestSize s) :
    WebcamGrabber.grabFrame s f readData = (false, s, f) ∧
    readRequestSize s = s.width * s.height * 2 % M32 ∧
    (s.width * s.height * 2 < M32 → readRequestSize s = s.width * s.height * 2) := by
  refine ⟨?_, rfl, fun h => ?_⟩
  · rw [WebcamGrabber.grabFrame, if_neg (by omega), if_pos hmis]
  · rw [readRequestSize, Nat.mod_eq_of_lt h]

/-- C7, witness: an open 4×4 device delivered 3 bytes instead of 32. -/
theorem grabFrame_read_exact_or_fail_witness :
    ((0 : Int) ≤ 5 ∧ ([1, 2, 3] : List Nat).length ≠ readRequestSize ⟨5, 4, 4, [], 0⟩) ∧
    (WebcamGrabber.grabFrame ⟨5, 4, 4, [], 0⟩ ⟨0, 0, 0, []⟩ [1, 2, 3] =
       (false, ⟨5, 4, 4, [], 0⟩, ⟨0, 0, 0, []⟩) ∧
     readRequestSize ⟨5, 4, 4, [], 0⟩ = 4 * 4 * 2 % M32 ∧
     (4 * 4 * 2 < M32 → readRequestSize ⟨5, 4, 4, [], 0⟩ = 4 * 4 * 2)) :=
  ⟨⟨by decide, by decide⟩,
   grabFrame_read_exact_or_fail ⟨5, 4, 4, [], 0⟩ ⟨0, 0, 0, []⟩ [1, 2, 3]
     (by decide) (by decide)⟩

/-! ## Claim C8 — adoption of the device-adjusted resolution -/

/-- C8, counterexample to the claim as stated: the conversion buffer is
resized to `new_width*new_height*4` in wrapping `uint32_t` arithmetic.  If
the device returns 65536×65536, init succeeds but the buffer is resized to
`2^34 mod 2^32 = 0` bytes, not the claimed `new_width*new_height*4`. -/
theorem resolution_adoption_wrap_counterexample :
    (WebcamGrabber.initV4L2 ⟨-1, 1920, 1080, [], 0⟩
       ⟨some 3, true, true, true, 65536, 65536⟩).1 = true ∧
    ((WebcamGrabber.initV4L2 ⟨-1, 1920, 1080, [], 0⟩
       ⟨some 3, true, true, true, 65536, 65536⟩).2.buffer).length = 0 ∧
    (0 : Nat) ≠ 65536 * 65536 * 4 := by
  refine ⟨by decide, by decide, by decide⟩

/-- C8 (amended).  When the device opens, reports capture capability and
accepts the format request while returning resolution
`(fmtWidth, fmtHeight)`, `initV4L2` succeeds and adopts the returned
resolution without failing: the stored width and height become the returned
values and the conversion buffer is resized to `fmtWidth*fmtHeight*4 mod 2^32`
bytes — equal to `fmtWidth*fmtHeight*4` whenever that product fits in 32 bits
— and every subsequently successful `grabFrame` reports the adopted
dimensions and stride `fmtWidth*4 mod 2^32`. -/
theorem resolution_adoption (s : WGState) (dev : V4L2Device) (fd : Nat)
    (f : Frame) (readData : List Nat)
    (hopen : dev.openFd = some fd) (hc1 : dev.querycapOk = true)
    (hc2 : dev.videoCaptureCap = true) (hc3 : dev.sfmtOk = true)
    (hread : readData.length = readRequestSize (WebcamGrabber.initV4L2 s dev).2) :
    (WebcamGrabber.initV4L2 s dev).1 = true ∧
    (WebcamGrabber.initV4L2 s dev).2.width = dev.fmtWidth ∧
    (WebcamGrabber.initV4L2 s dev).2.height = dev.fmtHeight ∧
    (WebcamGrabber.initV4L2 s dev).2.buffer.length =
      dev.fmtWidth * dev.fmtHeight * 4 % M32 ∧
    (dev.fmtWidth * dev.fmtHeight * 4 < M32 →
      (WebcamGrabber.initV4L2 s dev).2.buffer.length = dev.fmtWidth * dev.fmtHeight * 4) ∧
    (WebcamGrabber.grabFrame (WebcamGrabber.initV4L2 s dev).2 f readData).1 = true ∧
    (WebcamGrabber.grabFrame (WebcamGrabber.initV4L2 s dev).2 f readData).2.2.width =
      dev.fmtWidth ∧
    (WebcamGrabber.grabFrame (WebcamGrabber.initV4L2 s dev).2 f readData).2.2.height =
      dev.fmtHeight ∧
    (WebcamGrabber.grabFrame (WebcamGrabber.initV4L2 s dev).2 f readData).2.2.stride =
      dev.fmtWidth * 4 % M32 := by
  have hinit : WebcamGrabber.initV4L2 s dev =
      (true, ⟨(fd : Int), dev.fmtWidth, dev.fmtHeight,
              List.replicate (dev.fmtWidth * dev.fmtHeight * 4 % M32) 0, s.frameCount⟩) := by
    rw [WebcamGrabber.initV4L2, hopen]
    simp [hc1, hc2, hc3]
  rw [hinit] at hread
  rw [hinit]
  have hg := grabFrame_success
    (⟨(fd : Int), dev.fmtWidth, dev.fmtHeight,
      List.replicate (dev.fmtWidth * dev.fmtHeight * 4 % M32) 0, s.frameCount⟩ : WGState)
    f readData (by simp) hread
  rw [hg]
  refine ⟨rfl, rfl, rfl, by simp, fun h => by simp [Nat.mod_eq_of_lt h], rfl, rfl, rfl, rfl⟩

/-- C8, witness: a 1920×1080 request adjusted by the device to 2×2, followed
by a successful 8-byte grab. -/
theorem resolution_adoption_witness :
    ((⟨some 3, true, true, true, 2, 2⟩ : V4L2Device).openFd = some 3 ∧
     (List.replicate 8 0).length =
       readRequestSize (WebcamGrabber.initV4L2 ⟨-1, 1920, 1080, [], 0⟩
         ⟨some 3, true, true, true, 2, 2⟩).2) ∧
    ((WebcamGrabber.initV4L2 ⟨-1, 1920, 1080, [], 0⟩
        ⟨some 3, true, true, true, 2, 2⟩).1 = true ∧
     (WebcamGrabber.initV4L2 ⟨-1, 1920, 1080, [], 0⟩
        ⟨some 3, true, true, true, 2, 2⟩).2.width = 2 ∧
     (WebcamGrabber.initV4L2 ⟨-1, 1920, 1080, [], 0⟩
        ⟨some 3, true, true, true, 2, 2⟩).2.height = 2 ∧
     (WebcamGrabber.initV4L2 ⟨-1, 1920, 1080, [], 0⟩
        ⟨some 3, true, true, true, 2, 2⟩).2.buffer.length = 2 * 2 * 4 % M32 ∧
     (2 * 2 * 4 < M32 →
       (WebcamGrabber.initV4L2 ⟨-1, 1920, 1080, [], 0⟩
          ⟨some 3, true, true, true, 2, 2⟩).2.buffer.length = 2 * 2 * 4) ∧
     (WebcamGrabber.grabFrame (WebcamGrabber.initV4L2 ⟨-1, 1920, 1080, [], 0⟩
        ⟨some 3, true, true, true, 2, 2⟩).2 ⟨0, 0, 0, []⟩ (List.replicate 8 0)).1 = true ∧
     (WebcamGrabber.grabFrame (WebcamGrabber.initV4L2 ⟨-1, 1920, 1080, [], 0⟩
        ⟨some 3, true, true, true, 2, 2⟩).2 ⟨0, 0, 0, []⟩ (List.replicate 8 0)).2.2.width = 2 ∧
     (WebcamGrabber.grabFrame (WebcamGrabber.initV4L2 ⟨-1, 1920, 1080, [], 0⟩
        ⟨some 3, true, true, true, 2, 2⟩).2 ⟨0, 0, 0, []⟩ (List.replicate 8 0)).2.2.height = 2 ∧
     (WebcamGrabber.grabFrame (WebcamGrabber.initV4L2 ⟨-1, 1920, 1080, [], 0⟩
        ⟨some 3, true, true, true, 2, 2⟩).2 ⟨0, 0, 0, []⟩ (List.replicate 8 0)).2.2.stride =
       2 * 4 % M32) :=
  ⟨⟨rfl, by decide⟩,
   resolution_adoption ⟨-1, 1920, 1080, [], 0⟩ ⟨some 3, true, true, true, 2, 2⟩ 3
     ⟨0, 0, 0, []⟩ (List.replicate 8 0) rfl rfl rfl rfl (by decide)⟩

/-! ## Claim C9 — upload precondition -/

/-- C9, counterexample to the claim as stated: the upload step of
`ObscuraRT::run` performs no length check whatsoever.  A 4-byte frame handed
to a 16-byte staging buffer is copied anyway (the payload bytes land in the
buffer) instead of being detected and treated as a fatal error. -/
theorem upload_no_length_check_counterexample :
    (⟨1, 1, 4, [9, 9, 9, 9]⟩ : Frame).getTotalBytes ≠ (List.replicate 16 0).length ∧
    uploadFrame (List.replicate 16 0) ⟨1, 1, 4, [9, 9, 9, 9]⟩ =
      [9, 9, 9, 9] ++ List.replicate 12 0 := by
  refine ⟨by decide, by decide⟩

/-- C9 (amended).  No mismatch detection exists: the upload unconditionally
copies `frame.getTotalBytes()` bytes.  The precondition that the frame byte
length equal the staging capacity holds in the program only by construction:
both the frame source and the pipeline are initialized at 1920×1080, every
test-pattern frame then carries exactly `1920*1080*4` bytes — the locked
staging capacity — and the upload overwrites the staging buffer exactly. -/
theorem upload_length_matches_staging (s : FGState) (staging : List Nat)
    (hw : s.width = 1920) (hh : s.height = 1080)
    (hcap : staging.length = getStagingBufferSize 1920 1080) :
    ((FrameGrabber.grabFrame s).2.2).getTotalBytes = staging.length ∧
    uploadFrame staging ((FrameGrabber.grabFrame s).2.2) =
      ((FrameGrabber.grabFrame s).2.2).data := by
  have hlen : ((FrameGrabber.grabFrame s).2.2).data.length = 8294400 := by
    show (frameData s.width s.height).length = 8294400
    rw [frameData_length, hw, hh]
  have hcap2 : staging.length = 8294400 := by
    rw [hcap]; rfl
  constructor
  · rw [Frame.getTotalBytes, hlen, hcap2]
  · rw [uploadFrame, List.drop_eq_nil_of_le (by rw [hlen, hcap2]), List.append_nil]

/-- C9, witness: the actual program configuration, a 1920×1080 source and the
matching 8294400-byte staging buffer. -/
theorem upload_length_matches_staging_witness :
    ((1920 : Nat) = 1920 ∧ (1080 : Nat) = 1080 ∧
     (List.replicate 8294400 0).length = getStagingBufferSize 1920 1080) ∧
    (((FrameGrabber.grabFrame ⟨1920, 1080, 0⟩).2.2).getTotalBytes =
       (List.replicate 8294400 0).length ∧
     uploadFrame (List.replicate 8294400 0) ((FrameGrabber.grabFrame ⟨1920, 1080, 0⟩).2.2) =
       ((FrameGrabber.grabFrame ⟨1920, 1080, 0⟩).2.2).data) :=
  ⟨⟨rfl, rfl, by rw [List.length_replicate]; rfl⟩,
   upload_length_matches_staging ⟨1920, 1080, 0⟩ (List.replicate 8294400 0) rfl rfl
     (by rw [List.length_replicate]; rfl)⟩

/-! ## Claim C10 — failed grabs leave the out-frame untouched -/

/-- C10.  Whenever `WebcamGrabber::grabFrame` fails — the device is not open
(`fd_ < 0`) or the delivered byte count differs from the requested size — it
returns `false`, leaves the out-parameter frame completely unchanged (width,
height, stride and data untouched) and leaves its own state unchanged; the
frame fields are written only on the fully successful path. -/
theorem grabFrame_failure_leaves_frame_unchanged (s : WGState) (f : Frame)
    (readData : List Nat)
    (h : s.fd < 0 ∨ readData.length ≠ readRequestSize s) :
    WebcamGrabber.grabFrame s f readData = (false, s, f) := by
  rcases h with h | h
  · rw [WebcamGrabber.grabFrame, if_pos h]
  · by_cases hfd : s.fd < 0
    · rw [WebcamGrabber.grabFrame, if_pos hfd]
    · rw [WebcamGrabber.grabFrame, if_neg hfd, if_pos h]

/-- C10, witness: both failure modes — a closed device, and an open device
with a short read — each preserving a marker out-frame. -/
theorem grabFrame_failure_leaves_frame_unchanged_witness :
    (((-1 : Int) < 0 ∨ ([] : List Nat).length ≠ readRequestSize ⟨-1, 4, 4, [], 0⟩) ∧
     ((3 : Int) < 0 ∨ ([1] : List Nat).length ≠ readRequestSize ⟨3, 4, 4, [], 0⟩)) ∧
    (WebcamGrabber.grabFrame ⟨-1, 4, 4, [], 0⟩ ⟨7, 8, 9, [5]⟩ [] =
       (false, ⟨-1, 4, 4, [], 0⟩, ⟨7, 8, 9, [5]⟩) ∧
     WebcamGrabber.grabFrame ⟨3, 4, 4, [], 0⟩ ⟨7, 8, 9, [5]⟩ [1] =
       (false, ⟨3, 4, 4, [], 0⟩, ⟨7, 8, 9, [5]⟩)) :=
  ⟨⟨Or.inl (by decide), Or.inr (by decide)⟩,
   grabFrame_failure_leaves_frame_unchanged ⟨-1, 4, 4, [], 0⟩ ⟨7, 8, 9, [5]⟩ []
     (Or.inl (by decide)),
   grabFrame_failure_leaves_frame_unchanged ⟨3, 4, 4, [], 0⟩ ⟨7, 8, 9, [5]⟩ [1]
     (Or.inr (by decide))⟩

end ObscuraRT
